import Mathlib

/-!
Shallow embedding of the step-chaining logic of `src/app.py` (a Streamlit
front-end around a remote generative-AI service).

The remote service and the UI are modelled as an environment `Env`:
whether an API key and a PDF are supplied, what the lazy session
initializer returns, and what text the remote session answers to each
outbound message.  The mutable `st.session_state` slots become the
record `AppState`; every button handler becomes a state transition that
also reports the list of messages it sent to the remote session.
-/

namespace BrochureApp

/-- Status of an uploaded document as reported by the remote service
(`uploaded_doc.state.name` in `init_gemini`). -/
inductive DocStatus where
  | PROCESSING
  | READY
  | FAILED
deriving DecidableEq

/-- The four `st.session_state` slots the app maintains (lines 31-38 of
`app.py`): the opaque chat-session handle and the three step results.
The handle is modelled as a `Nat`; `none` is Python `None`. -/
structure AppState where
  chat_session : Option Nat
  step1_result : Option String
  step2_result : Option String
  step3_result : Option String
deriving DecidableEq

/-- The state right after `st.session_state.clear()` plus the
re-initialisation block: every slot is `None`. -/
def initialState : AppState :=
  { chat_session := none, step1_result := none, step2_result := none,
    step3_result := none }

/-- Environment supplied by the UI and the remote service for one
handler invocation: whether `api_key and uploaded_file` is truthy,
what `init_gemini` returns (`some` handle or `None` on connection
error), and the text the remote session answers to a given message. -/
structure Env where
  haveKeyAndFile : Bool
  initResult : Option Nat
  send : String → String

/-- Python string interpolation of an optional value: `None` renders as
the literal string "None", a present string renders as itself. -/
def pyStr : Option String → String
  | none => "None"
  | some s => s

/-- Default prompt of Step 1 (`default_p1` in `app.py`). -/
def default_p1 : String :=
"Read the entire PDF brochure thoroughly, page by page, without skipping any content.

Extract all information exactly as presented, including but not limited to:

• All statements, claims, promises, and assertions
• All factual data, numbers, percentages, measurements, and comparisons
• All descriptions of products, services, processes, and methodologies
• All benefits, advantages, differentiators, and selling points
• All assumptions, conditions, limitations, exclusions, and disclaimers
• All testimonials, quotes, endorsements, or implied guarantees
• All timelines, dates, milestones, and projections
• All references to standards, certifications, partners, or authorities

Do not summarize, paraphrase, soften, or improve wording.
Preserve original language verbatim wherever possible.

Organize the output strictly by page number and section heading, so each extracted item can be traced back to its source.

Convert tables, charts, footnotes, captions, and callouts into text while preserving structure.

If a statement is vague, ambiguous, or unsupported, mark it clearly as such without interpretation.

If claims appear absolute, comparative, or superlative, label them explicitly.

Do not add analysis, opinions, or conclusions.

The goal is a complete, auditable raw information dump suitable for later rebuttal and cross examination."

/-- Default prompt of Step 2 (`default_p2` in `app.py`). -/
def default_p2 : String :=
"From the provided brochure text, generate customer facing questions suitable for rebuttal, retention, and grievance handling.

Internally ensure the questions cover ALL of the following categories (do not label categories in output):
\t1.\tGeneral understanding and informative questions
• overall plan purpose
• who the plan is for
• how the plan helps in the long term
\t2.\tCustomer doubts and confusion after purchase
• misunderstanding of benefits
• expectations versus reality
\t3.\tPolicy status and continuation scenarios
• lapsed, paid up, discontinued situations
• impact of stopping premiums
\t4.\tRegret, sunk cost, and continuation dilemma
• customer has already paid for some time
• what is lost if the policy is stopped now
• whether continuing still makes sense
\t5.\tDissatisfaction and trust concerns
• miss selling perception
• unhappiness or loss of confidence

STRICTLY EXCLUDE:
• illustration based or example based questions
• questions containing specific numbers, percentages, ages, amounts, or years
• feature by feature, option listing, rider, or fund mechanics questions
• operational or administrative queries

Write questions in simple, natural, first person language used by Indian policyholders.

Write questions as if spoken by a non technical Indian customer in a real call or complaint.

Prefer short, direct sentences over complex ones.

Generate multiple simple variations when the same concern can be expressed differently, as long as the meaning is not identical.

Do NOT answer the questions.

Output only a clean list of questions."

/-- Default prompt of Step 3 (`default_p3` in `app.py`). -/
def default_p3 : String :=
"Using only the brochure content provided, answer each question below.

Follow these rules strictly:

• Repeat the question exactly as written, including the *  at the beginning and  * at the end
• Write the answer immediately below the question
• Write as if you are speaking directly to the customer, not referring to documents
• Never mention the brochure, policy document, or terms text explicitly
• Use simple, non technical, customer friendly language
• Respond as a customer support and retention executive
• Always start by reassuring and explaining why the plan still has value
• Convince the customer calmly before offering any next steps
• You may mention customer support or helpline only as optional assistance, not as an exit
• Never ask the customer to complain, escalate, or raise a grievance
• Do not use legal or compliance heavy phrases
• Do not introduce information not present in the brochure
• Keep answers short, clear, and benefit focused

If a question cannot be fully answered using the brochure alone, provide reassurance first, then gently suggest reaching customer support for personalised help.


 FORMATTING RULES:
        - DEFAULT FORMAT (Q&A):
           Q: \x7b\x7bQuestion/Heading\x7d\x7d
           A: \x7b\x7banswer\x7d\x7d
           Separator: \x27###\x27


"

/-- The Step 3 message of Automatic mode (the f-string at lines 219-227
of `app.py`), interpolating the freshly stored Step 1 and Step 2
results; the instruction is the fixed `default_p3`. -/
def final_input_auto (r1 r2 : String) : String :=
  "\n                    You are now in the Final Compilation step. \n                    === START STEP 1 OUTPUT ===\n                    "
  ++ r1
  ++ "\n                    === START STEP 2 OUTPUT ===\n                    "
  ++ r2
  ++ "\n                    === INSTRUCTION ===\n                    "
  ++ default_p3
  ++ "\n                    "

/-- The Step 3 message of Manual mode (the f-string at lines 298-303 of
`app.py`), interpolating the stored Step 1 and Step 2 results and the
editable Step 3 prompt. -/
def final_input_manual (r1 r2 p3 : String) : String :=
  "\n                Previous outputs:\n                "
  ++ r1
  ++ "\n                "
  ++ r2
  ++ "\n                Instruction: "
  ++ p3
  ++ "\n                "

/-- The message Manual-mode Step 3 sends, read off the current state:
the f-string formats the stored (optional) results with Python str. -/
def outboundStep3 (s : AppState) (p3 : String) : String :=
  final_input_manual (pyStr s.step1_result) (pyStr s.step2_result) p3

/-- The user actions the app reacts to: the three Manual-mode Run
buttons (each with the prompt text currently in its text area), the
Automatic-mode Run Full Chain button, and the Reset Chain button. -/
inductive Action where
  | runStep1 : String → Action
  | runStep2 : String → Action
  | runStep3 : String → Action
  | runFullChain : Action
  | reset : Action

/-- Handler of the Run Step 1 button (lines 255-265): requires key and
file, lazily initialises the session if absent, and on a live session
sends the prompt and stores the reply in `step1_result`.  Returns the
new state and the list of messages sent to the remote session. -/
def runStep1T (env : Env) (p : String) (s : AppState) : AppState × List String :=
  if env.haveKeyAndFile = false then (s, [])
  else
    let s1 := if s.chat_session = none then { s with chat_session := env.initResult } else s
    match s1.chat_session with
    | none => (s1, [])
    | some _ => ({ s1 with step1_result := some (env.send p) }, [p])

/-- Handler of the Run Step 2 button (lines 276-282): requires
`step1_result`, then sends only the Step 2 prompt and stores the reply
in `step2_result`. -/
def runStep2T (env : Env) (p : String) (s : AppState) : AppState × List String :=
  if s.step1_result = none then (s, [])
  else ({ s with step2_result := some (env.send p) }, [p])

/-- Handler of the Run Step 3 button (lines 293-305): requires
`step2_result`, then sends the interpolated `final_input` and stores the
reply in `step3_result`. -/
def runStep3T (env : Env) (p : String) (s : AppState) : AppState × List String :=
  if s.step2_result = none then (s, [])
  else ({ s with step3_result := some (env.send (outboundStep3 s p)) }, [outboundStep3 s p])

/-- Handler of the Run Full Chain button of Automatic mode (lines
195-229): requires key and file, lazily initialises the session, then
runs the three steps back to back with the default prompts, the third
message being the injected-context template over the fresh results. -/
def runFullChainT (env : Env) (s : AppState) : AppState × List String :=
  if env.haveKeyAndFile = false then (s, [])
  else
    let s1 := if s.chat_session = none then { s with chat_session := env.initResult } else s
    match s1.chat_session with
    | none => (s1, [])
    | some _ =>
      let r1 := env.send default_p1
      let r2 := env.send default_p2
      let m3 := final_input_auto r1 r2
      let r3 := env.send m3
      ({ s1 with step1_result := some r1, step2_result := some r2,
                 step3_result := some r3 },
       [default_p1, default_p2, m3])

/-- One handler invocation: the new state together with the trace of
messages sent to the remote session.  Reset (lines 26-28) clears the
whole session state; the re-initialisation block then restores every
slot to `None`. -/
def stepT (env : Env) : Action → AppState → AppState × List String
  | .runStep1 p, s => runStep1T env p s
  | .runStep2 p, s => runStep2T env p s
  | .runStep3 p, s => runStep3T env p s
  | .runFullChain, s => runFullChainT env s
  | .reset, _ => (initialState, [])

/-- The state after one handler invocation. -/
def step (env : Env) (a : Action) (s : AppState) : AppState :=
  (stepT env a s).1

/-- States reachable from the fresh app state by any sequence of button
presses, each under an arbitrary environment. -/
inductive Reachable : AppState → Prop where
  | init : Reachable initialState
  | next : ∀ (env : Env) (a : Action) (s : AppState),
      Reachable s → Reachable (step env a s)

/-- The document-ready poll loop of `init_gemini` (lines 71-75),
parametrised by the status the service reports at the n-th query.
`poll status fuel i slept` runs the loop from query index `i` having
already slept `slept` seconds; each iteration sleeps one second and
re-queries.  It returns the exit query index together with the total
seconds slept, or `none` if `fuel` iterations were not enough. -/
def poll (status : Nat → DocStatus) : Nat → Nat → Nat → Option (Nat × Nat)
  | 0, _, _ => none
  | fuel + 1, i, slept =>
    if status i = DocStatus.PROCESSING then poll status fuel (i + 1) (slept + 1)
    else some (i, slept)

/-- Does the pattern occur at the head of the text? -/
def matchesHere : List Char → List Char → Bool
  | [], _ => true
  | _ :: _, [] => false
  | a :: as, b :: bs => a == b && matchesHere as bs

/-- Does the pattern occur anywhere in the text? -/
def occursIn (pat : List Char) : List Char → Bool
  | [] => matchesHere pat []
  | c :: rest => matchesHere pat (c :: rest) || occursIn pat rest

/-- C3: running Step 2 without a Step 1 result, or Step 3 without a
Step 2 result, fails the prerequisite check: nothing is sent to the
remote session, no result slot is set or cleared, and the whole state
(session handle and the three result slots) is returned unchanged. -/
theorem C3_prerequisite_failure_no_mutation (env : Env) (p q : String) (s : AppState) :
    (s.step1_result = none → stepT env (Action.runStep2 p) s = (s, [])) ∧
    (s.step2_result = none → stepT env (Action.runStep3 q) s = (s, [])) := by
  constructor <;> intro h <;> simp [stepT, runStep2T, runStep3T, h]

/-- Witness for C3 at the fresh state, where both prerequisite results
are absent. -/
theorem C3_prerequisite_failure_no_mutation_witness :
    stepT ⟨true, some 0, fun _ => "x"⟩ (Action.runStep2 "q2") initialState
      = (initialState, []) ∧
    stepT ⟨true, some 0, fun _ => "x"⟩ (Action.runStep3 "q3") initialState
      = (initialState, []) :=
  ⟨(C3_prerequisite_failure_no_mutation ⟨true, some 0, fun _ => "x"⟩ "q2" "q3" initialState).1 rfl,
   (C3_prerequisite_failure_no_mutation ⟨true, some 0, fun _ => "x"⟩ "q2" "q3" initialState).2 rfl⟩

/-- C5: the outbound Step 3 message of injected-context mode is a pure
function of the stored Step 1 result, the stored Step 2 result and the
Step 3 prompt alone.  Two arbitrary states agreeing on those two slots,
with equal prompts, yield byte-identical Manual-mode messages, and the
Automatic-mode template is likewise determined by the two results. -/
theorem C5_outbound_message_deterministic (s t : AppState) (p q a b a2 b2 : String)
    (h1 : s.step1_result = t.step1_result) (h2 : s.step2_result = t.step2_result)
    (hp : p = q) (ha : a = a2) (hb : b = b2) :
    outboundStep3 s p = outboundStep3 t q ∧
    final_input_auto a b = final_input_auto a2 b2 := by
  constructor
  · simp [outboundStep3, h1, h2, hp]
  · rw [ha, hb]

/-- Witness for C5: two states that differ in session handle and Step 3
result but agree on the first two result slots produce the same
message. -/
theorem C5_outbound_message_deterministic_witness :
    outboundStep3 ⟨some 0, some "R1", some "R2", none⟩ "P" =
      outboundStep3 ⟨some 7, some "R1", some "R2", some "old"⟩ "P" ∧
    final_input_auto "R1" "R2" = final_input_auto "R1" "R2" :=
  C5_outbound_message_deterministic
    ⟨some 0, some "R1", some "R2", none⟩ ⟨some 7, some "R1", some "R2", some "old"⟩
    "P" "P" "R1" "R2" "R1" "R2" rfl rfl rfl rfl rfl

/-- C6: the Reset button unconditionally returns the fresh state (no
session handle, all three result slots cleared), and a Step 1 run right
after a reset initialises a session from scratch: the stored handle is
exactly what the initializer returns, because no handle existed. -/
theorem C6_reset_clears_all (env env2 : Env) (s : AppState) (p : String)
    (h : env2.haveKeyAndFile = true) :
    step env Action.reset s = initialState ∧
    (step env2 (Action.runStep1 p) (step env Action.reset s)).chat_session
      = env2.initResult := by
  refine ⟨rfl, ?_⟩
  show (runStep1T env2 p initialState).1.chat_session = env2.initResult
  cases hr : env2.initResult with
  | none => simp [runStep1T, h, initialState, hr]
  | some n => simp [runStep1T, h, initialState, hr]

/-- Witness for C6 with a concrete environment and a dirty state. -/
theorem C6_reset_clears_all_witness :
    step ⟨true, some 3, fun _ => "x"⟩ Action.reset ⟨some 9, some "a", some "b", some "c"⟩
      = initialState ∧
    (step ⟨true, some 3, fun _ => "x"⟩ (Action.runStep1 "p")
        (step ⟨true, some 3, fun _ => "x"⟩ Action.reset
          ⟨some 9, some "a", some "b", some "c"⟩)).chat_session = some 3 :=
  C6_reset_clears_all ⟨true, some 3, fun _ => "x"⟩ ⟨true, some 3, fun _ => "x"⟩
    ⟨some 9, some "a", some "b", some "c"⟩ "p" rfl

/-- C7: on Run Step 1 and on Run Full Chain, the session is initialised
only when no handle exists; an existing handle is kept as is, so the
document-priming turns are not resent on a re-run. -/
theorem C7_session_initialised_only_if_absent (env : Env) (p : String) (s : AppState)
    (n : Nat) (h : env.haveKeyAndFile = true) :
    (s.chat_session = some n →
      (step env (Action.runStep1 p) s).chat_session = some n ∧
      (step env Action.runFullChain s).chat_session = some n) ∧
    (s.chat_session = none →
      (step env (Action.runStep1 p) s).chat_session = env.initResult ∧
      (step env Action.runFullChain s).chat_session = env.initResult) := by
  constructor
  · intro hc
    constructor <;> simp [step, stepT, runStep1T, runFullChainT, h, hc]
  · intro hc
    cases hr : env.initResult with
    | none => constructor <;> simp [step, stepT, runStep1T, runFullChainT, h, hc, hr]
    | some m => constructor <;> simp [step, stepT, runStep1T, runFullChainT, h, hc, hr]

/-- Witness for C7: re-running Step 1 on a state that already holds
session handle 5, under an initializer that would return handle 3,
keeps handle 5. -/
theorem C7_session_initialised_only_if_absent_witness :
    ((step ⟨true, some 3, fun _ => "x"⟩ (Action.runStep1 "p")
        ⟨some 5, some "a", none, none⟩).chat_session = some 5 ∧
     (step ⟨true, some 3, fun _ => "x"⟩ Action.runFullChain
        ⟨some 5, some "a", none, none⟩).chat_session = some 5) :=
  (C7_session_initialised_only_if_absent ⟨true, some 3, fun _ => "x"⟩ "p"
    ⟨some 5, some "a", none, none⟩ 5 rfl).1 rfl

/-- C8: in continuation mode the outbound message is exactly the
prompt: Step 2 sends the list of messages `[prompt2]` and Step 1 sends
`[prompt1]`, with no prior result text included. -/
theorem C8_continuation_sends_prompt_only (env : Env) (p q : String) (s : AppState)
    (h1 : s.step1_result ≠ none) (hk : env.haveKeyAndFile = true)
    (hs : s.chat_session ≠ none) :
    (stepT env (Action.runStep2 q) s).2 = [q] ∧
    (stepT env (Action.runStep1 p) s).2 = [p] := by
  constructor
  · simp [stepT, runStep2T, h1]
  · obtain ⟨n, hn⟩ := Option.ne_none_iff_exists'.mp hs
    simp [stepT, runStep1T, hk, hn]

/-- Witness for C8: with Step 1 completed, running Step 2 with prompt
"List risks" sends exactly that prompt and nothing else. -/
theorem C8_continuation_sends_prompt_only_witness :
    (stepT ⟨true, some 0, fun _ => "x"⟩ (Action.runStep2 "List risks")
        ⟨some 0, some "R1", none, none⟩).2 = ["List risks"] :=
  (C8_continuation_sends_prompt_only ⟨true, some 0, fun _ => "x"⟩ "Summarize" "List risks"
    ⟨some 0, some "R1", none, none⟩ (by decide) rfl (by decide)).1

/-- C1 counterexample: run the full chain (completing Step 1 with all
three results stored), then re-run Step 1.  Step 1 is re-set, but the
Step 2 and Step 3 results are NOT cleared, contradicting the claimed
downstream invalidation. -/
theorem C1_counterexample_no_invalidation :
    (step ⟨true, some 0, fun _ => "x"⟩ Action.runFullChain initialState).step1_result
      = some "x" ∧
    (step ⟨true, some 0, fun _ => "x"⟩ (Action.runStep1 "p")
        (step ⟨true, some 0, fun _ => "x"⟩ Action.runFullChain initialState)).step1_result
      = some "x" ∧
    (step ⟨true, some 0, fun _ => "x"⟩ (Action.runStep1 "p")
        (step ⟨true, some 0, fun _ => "x"⟩ Action.runFullChain initialState)).step2_result
      ≠ none ∧
    (step ⟨true, some 0, fun _ => "x"⟩ (Action.runStep1 "p")
        (step ⟨true, some 0, fun _ => "x"⟩ Action.runFullChain initialState)).step3_result
      ≠ none := by
  refine ⟨rfl, rfl, ?_, ?_⟩ <;> decide

/-- C1, amended: re-running a completed step sets that step and leaves
every downstream result slot unchanged — the handlers perform no
invalidation of later results. -/
theorem C1_amended_rerun_keeps_downstream (env : Env) (p : String) (s : AppState)
    (hk : env.haveKeyAndFile = true) (hs : s.chat_session ≠ none)
    (h1 : s.step1_result ≠ none) :
    ((step env (Action.runStep1 p) s).step1_result = some (env.send p) ∧
     (step env (Action.runStep1 p) s).step2_result = s.step2_result ∧
     (step env (Action.runStep1 p) s).step3_result = s.step3_result) ∧
    ((step env (Action.runStep2 p) s).step2_result = some (env.send p) ∧
     (step env (Action.runStep2 p) s).step3_result = s.step3_result) := by
  constructor
  · obtain ⟨n, hn⟩ := Option.ne_none_iff_exists'.mp hs
    refine ⟨?_, ?_, ?_⟩ <;> simp [step, stepT, runStep1T, hk, hn]
  · refine ⟨?_, ?_⟩ <;> simp [step, stepT, runStep2T, h1]

/-- Witness for the amended C1: re-running Step 1 on a fully completed
chain updates Step 1 and keeps the old Step 2 result. -/
theorem C1_amended_rerun_keeps_downstream_witness :
    (step ⟨true, some 0, fun _ => "y"⟩ (Action.runStep1 "p")
        ⟨some 0, some "a", some "b", some "c"⟩).step2_result = some "b" :=
  ((C1_amended_rerun_keeps_downstream ⟨true, some 0, fun _ => "y"⟩ "p"
      ⟨some 0, some "a", some "b", some "c"⟩ rfl (by decide) (by decide)).1).2.1

/-- C2 counterexample: in Manual mode, at exactly the scenario of the
claim (R1 = "Brochure text", R2 = "Q: ...A: ...", prompt
"Compile HTML"), the message the Step 3 handler sends is the
`final_input_manual` template, and that message does not contain the
label "STEP 1 OUTPUT" at all — the labeled delimiter blocks exist only
in the Automatic-mode template. -/
theorem C2_counterexample_manual_lacks_labels :
    (stepT ⟨true, some 0, fun _ => "x"⟩ (Action.runStep3 "Compile HTML")
        ⟨some 0, some "Brochure text", some "Q: ...A: ...", none⟩).2
      = [final_input_manual "Brochure text" "Q: ...A: ..." "Compile HTML"] ∧
    occursIn ("STEP 1 OUTPUT".toList)
      ((final_input_manual "Brochure text" "Q: ...A: ..." "Compile HTML").toList)
      = false := by
  refine ⟨rfl, ?_⟩
  decide

/-- C2, amended: the Automatic-mode Step 3 message contains a labeled
block "STEP 1 OUTPUT" followed by the Step 1 result, then a labeled
block "STEP 2 OUTPUT" followed by the Step 2 result, then the
instruction `default_p3`, in that order; the Manual-mode Step 3 message
contains the Step 1 result, the Step 2 result, and the prompt in that
order, but introduced by "Previous outputs:" with no step labels. -/
theorem C2_amended_injected_context_blocks (r1 r2 p : String) :
    (∃ a b c d e f,
      final_input_auto r1 r2 =
        a ++ "STEP 1 OUTPUT" ++ b ++ r1 ++ c ++ "STEP 2 OUTPUT" ++ d ++ r2 ++ e
          ++ default_p3 ++ f) ∧
    final_input_manual r1 r2 p =
      "\n                Previous outputs:\n                " ++ r1
        ++ "\n                " ++ r2
        ++ "\n                Instruction: " ++ p
        ++ "\n                " := by
  constructor
  · refine ⟨"\n                    You are now in the Final Compilation step. \n                    === START ",
      " ===\n                    ",
      "\n                    === START ",
      " ===\n                    ",
      "\n                    === INSTRUCTION ===\n                    ",
      "\n                    ", ?_⟩
    simp only [final_input_auto]
    rw [show ("\n                    You are now in the Final Compilation step. \n                    === START STEP 1 OUTPUT ===\n                    " : String)
        = "\n                    You are now in the Final Compilation step. \n                    === START "
          ++ "STEP 1 OUTPUT" ++ " ===\n                    " from rfl]
    rw [show ("\n                    === START STEP 2 OUTPUT ===\n                    " : String)
        = "\n                    === START " ++ "STEP 2 OUTPUT" ++ " ===\n                    " from rfl]
    simp [String.append_assoc]
  · rfl

/-- Key invariant of every reachable state: a Step 1 result implies a
live session handle, a Step 2 result implies a Step 1 result and a live
handle, and a Step 3 result implies a Step 2 result. -/
theorem reachable_inv (s : AppState) (h : Reachable s) :
    (s.step1_result ≠ none → s.chat_session ≠ none) ∧
    (s.step2_result ≠ none → s.step1_result ≠ none ∧ s.chat_session ≠ none) ∧
    (s.step3_result ≠ none → s.step2_result ≠ none) := by
  induction h with
  | init => simp [initialState]
  | next env a s hs ih =>
    obtain ⟨ih1, ih2, ih3⟩ := ih
    cases a with
    | runStep1 p =>
      by_cases hk : env.haveKeyAndFile = false
      · have hstate : step env (Action.runStep1 p) s = s := by
          simp [step, stepT, runStep1T, hk]
        rw [hstate]; exact ⟨ih1, ih2, ih3⟩
      · cases hc : s.chat_session with
        | none =>
          cases hr : env.initResult with
          | none =>
            have hstate : step env (Action.runStep1 p) s
                = { s with chat_session := none } := by
              simp [step, stepT, runStep1T, hk, hc, hr]
            rw [hstate]
            exact ⟨fun h1 => absurd hc (ih1 h1),
                   fun h2 => absurd hc ((ih2 h2).2),
                   fun h3 => ih3 h3⟩
          | some n =>
            have hstate : step env (Action.runStep1 p) s
                = { chat_session := some n, step1_result := some (env.send p),
                    step2_result := s.step2_result,
                    step3_result := s.step3_result } := by
              simp [step, stepT, runStep1T, hk, hc, hr]
            rw [hstate]
            exact ⟨fun _ => Option.some_ne_none n,
                   fun _ => ⟨Option.some_ne_none _, Option.some_ne_none n⟩,
                   fun h3 => ih3 h3⟩
        | some m =>
          have hstate : step env (Action.runStep1 p) s
              = { chat_session := some m, step1_result := some (env.send p),
                  step2_result := s.step2_result,
                  step3_result := s.step3_result } := by
            simp [step, stepT, runStep1T, hk, hc]
          rw [hstate]
          exact ⟨fun _ => Option.some_ne_none m,
                 fun _ => ⟨Option.some_ne_none _, Option.some_ne_none m⟩,
                 fun h3 => ih3 h3⟩
    | runStep2 p =>
      cases h1 : s.step1_result with
      | none =>
        have hstate : step env (Action.runStep2 p) s = s := by
          simp [step, stepT, runStep2T, h1]
        rw [hstate]; exact ⟨ih1, ih2, ih3⟩
      | some r =>
        have hstate : step env (Action.runStep2 p) s
            = { chat_session := s.chat_session, step1_result := some r,
                step2_result := some (env.send p),
                step3_result := s.step3_result } := by
          simp [step, stepT, runStep2T, h1]
        rw [hstate]
        have hchat : s.chat_session ≠ none := ih1 (by simp [h1])
        exact ⟨fun _ => hchat,
               fun _ => ⟨Option.some_ne_none r, hchat⟩,
               fun h3 => by
                 have := ih3 h3
                 exact Option.some_ne_none _⟩
    | runStep3 p =>
      cases h2 : s.step2_result with
      | none =>
        have hstate : step env (Action.runStep3 p) s = s := by
          simp [step, stepT, runStep3T, h2]
        rw [hstate]; exact ⟨ih1, ih2, ih3⟩
      | some r =>
        have hstate : step env (Action.runStep3 p) s
            = { chat_session := s.chat_session, step1_result := s.step1_result,
                step2_result := some r,
                step3_result := some (env.send (outboundStep3 s p)) } := by
          simp [step, stepT, runStep3T, h2]
        rw [hstate]
        have hpre := ih2 (by simp [h2])
        exact ⟨fun _ => hpre.2,
               fun _ => hpre,
               fun _ => Option.some_ne_none r⟩
    | runFullChain =>
      by_cases hk : env.haveKeyAndFile = false
      · have hstate : step env Action.runFullChain s = s := by
          simp [step, stepT, runFullChainT, hk]
        rw [hstate]; exact ⟨ih1, ih2, ih3⟩
      · cases hc : s.chat_session with
        | none =>
          cases hr : env.initResult with
          | none =>
            have hstate : step env Action.runFullChain s
                = { s with chat_session := none } := by
              simp [step, stepT, runFullChainT, hk, hc, hr]
            rw [hstate]
            exact ⟨fun h1 => absurd hc (ih1 h1),
                   fun h2 => absurd hc ((ih2 h2).2),
                   fun h3 => ih3 h3⟩
          | some n =>
            have hstate : step env Action.runFullChain s
                = { chat_session := some n,
                    step1_result := some (env.send default_p1),
                    step2_result := some (env.send default_p2),
                    step3_result := some (env.send (final_input_auto
                      (env.send default_p1) (env.send default_p2))) } := by
              simp [step, stepT, runFullChainT, hk, hc, hr]
            rw [hstate]
            exact ⟨fun _ => Option.some_ne_none n,
                   fun _ => ⟨Option.some_ne_none _, Option.some_ne_none n⟩,
                   fun _ => Option.some_ne_none _⟩
        | some m =>
          have hstate : step env Action.runFullChain s
              = { chat_session := some m,
                  step1_result := some (env.send default_p1),
                  step2_result := some (env.send default_p2),
                  step3_result := some (env.send (final_input_auto
                    (env.send default_p1) (env.send default_p2))) } := by
            simp [step, stepT, runFullChainT, hk, hc]
          rw [hstate]
          exact ⟨fun _ => Option.some_ne_none m,
                 fun _ => ⟨Option.some_ne_none _, Option.some_ne_none m⟩,
                 fun _ => Option.some_ne_none _⟩
    | reset =>
      have hstate : step env Action.reset s = initialState := rfl
      rw [hstate]; simp [initialState]

/-- C4: in every reachable state the non-empty result slots form a
prefix of the chain: a Step 2 result exists only with a Step 1 result,
and a Step 3 result only with a Step 2 result. -/
theorem C4_completed_steps_form_chain (s : AppState) (h : Reachable s) :
    (s.step2_result ≠ none → s.step1_result ≠ none) ∧
    (s.step3_result ≠ none → s.step2_result ≠ none) :=
  ⟨fun h2 => ((reachable_inv s h).2.1 h2).1, (reachable_inv s h).2.2⟩

/-- Witness for C4 at the reachable state obtained by one full-chain
run from the fresh state. -/
theorem C4_completed_steps_form_chain_witness :
    ((step ⟨true, some 0, fun _ => "x"⟩ Action.runFullChain initialState).step2_result ≠ none →
      (step ⟨true, some 0, fun _ => "x"⟩ Action.runFullChain initialState).step1_result ≠ none) ∧
    ((step ⟨true, some 0, fun _ => "x"⟩ Action.runFullChain initialState).step3_result ≠ none →
      (step ⟨true, some 0, fun _ => "x"⟩ Action.runFullChain initialState).step2_result ≠ none) :=
  C4_completed_steps_form_chain _
    (Reachable.next ⟨true, some 0, fun _ => "x"⟩ Action.runFullChain initialState
      Reachable.init)

/-- C10: in every reachable state a Step 1 result implies a live
session handle, and a Step 2 result does too; so the unchecked
`send_message` calls of the Manual-mode Step 2 and Step 3 handlers
(guarded only by the previous result being present) never run on an
absent session. -/
theorem C10_send_never_on_absent_session (s : AppState) (h : Reachable s) :
    (s.step1_result ≠ none → s.chat_session ≠ none) ∧
    (s.step2_result ≠ none → s.chat_session ≠ none) :=
  ⟨(reachable_inv s h).1, fun h2 => ((reachable_inv s h).2.1 h2).2⟩

/-- Witness for C10 at the reachable state obtained by one Step 1 run
from the fresh state. -/
theorem C10_send_never_on_absent_session_witness :
    ((step ⟨true, some 4, fun _ => "x"⟩ (Action.runStep1 "p") initialState).step1_result ≠ none →
      (step ⟨true, some 4, fun _ => "x"⟩ (Action.runStep1 "p") initialState).chat_session ≠ none) ∧
    ((step ⟨true, some 4, fun _ => "x"⟩ (Action.runStep1 "p") initialState).step2_result ≠ none →
      (step ⟨true, some 4, fun _ => "x"⟩ (Action.runStep1 "p") initialState).chat_session ≠ none) :=
  C10_send_never_on_absent_session _
    (Reachable.next ⟨true, some 4, fun _ => "x"⟩ (Action.runStep1 "p") initialState
      Reachable.init)

/-- If the service reports PROCESSING at every query, the poll loop
returns `none` for every fuel bound: the call never returns. -/
theorem poll_never_returns (status : Nat → DocStatus)
    (hall : ∀ n, status n = DocStatus.PROCESSING) :
    ∀ fuel i slept, poll status fuel i slept = none := by
  intro fuel
  induction fuel with
  | zero => intro i slept; rfl
  | succ f ih =>
    intro i slept
    simp [poll, hall]
    exact ih (i + 1) (slept + 1)

/-- The poll loop starting at query index i exits at the first
non-PROCESSING report, having slept one further second per re-query. -/
theorem poll_exits_at_first_ready (status : Nat → DocStatus) (j : Nat) :
    ∀ i slept fuel, status (i + j) ≠ DocStatus.PROCESSING →
      (∀ k, k < j → status (i + k) = DocStatus.PROCESSING) → j < fuel →
      poll status fuel i slept = some (i + j, slept + j) := by
  induction j with
  | zero =>
    intro i slept fuel hj _ hf
    cases fuel with
    | zero => exact absurd hf (by omega)
    | succ f =>
      simp only [Nat.add_zero] at hj ⊢
      simp [poll, hj]
  | succ n ihn =>
    intro i slept fuel hj hk hf
    cases fuel with
    | zero => exact absurd hf (by omega)
    | succ f =>
      have h0 : status i = DocStatus.PROCESSING := by
        have := hk 0 (Nat.succ_pos n)
        simpa using this
      have hrec := ihn (i + 1) (slept + 1) f
        (by rw [show i + 1 + n = i + (n + 1) from by omega]; exact hj)
        (fun k hkk => by
          rw [show i + 1 + k = i + (k + 1) from by omega]
          exact hk (k + 1) (by omega))
        (by omega)
      rw [show i + 1 + n = i + (n + 1) from by omega,
          show slept + 1 + n = slept + (n + 1) from by omega] at hrec
      simpa [poll, h0] using hrec

/-- Whenever the poll loop returns, the status at the exit index is not
PROCESSING, and the seconds slept grew by exactly the number of
re-queries performed. -/
theorem poll_returns_only_ready (status : Nat → DocStatus) :
    ∀ fuel i slept j t, poll status fuel i slept = some (j, t) →
      status j ≠ DocStatus.PROCESSING ∧ j + slept = i + t := by
  intro fuel
  induction fuel with
  | zero => intro i slept j t h; simp [poll] at h
  | succ f ih =>
    intro i slept j t h
    by_cases h0 : status i = DocStatus.PROCESSING
    · simp only [poll, h0, if_pos] at h
      have := ih (i + 1) (slept + 1) j t (by simpa using h)
      exact ⟨this.1, by omega⟩
    · simp [poll, h0] at h
      obtain ⟨h1, h2⟩ := h
      subst h1; subst h2
      exact ⟨h0, rfl⟩

/-- C9: the document-ready wait of the initializer is a poll loop with
a fixed one-second delay per re-query and no timeout ceiling.  Starting
from the first query: (a) if the first non-PROCESSING report comes at
query j, the loop returns exactly there having slept j seconds (one per
iteration); (b) whenever the loop returns it is because a
non-PROCESSING status was reported, with seconds slept equal to the
number of re-queries; (c) if the service reports PROCESSING forever,
the loop returns for no fuel bound at all — the call never returns. -/
theorem C9_poll_fixed_delay_no_timeout (status : Nat → DocStatus) :
    (∀ j fuel, status j ≠ DocStatus.PROCESSING →
      (∀ k, k < j → status k = DocStatus.PROCESSING) → j < fuel →
      poll status fuel 0 0 = some (j, j)) ∧
    (∀ fuel j t, poll status fuel 0 0 = some (j, t) →
      status j ≠ DocStatus.PROCESSING ∧ t = j) ∧
    ((∀ n, status n = DocStatus.PROCESSING) → ∀ fuel, poll status fuel 0 0 = none) := by
  refine ⟨?_, ?_, ?_⟩
  · intro j fuel hj hk hf
    have := poll_exits_at_first_ready status j 0 0 fuel
      (by simpa using hj) (fun k hkk => by simpa using hk k hkk) hf
    simpa using this
  · intro fuel j t h
    have := poll_returns_only_ready status fuel 0 0 j t h
    exact ⟨this.1, by omega⟩
  · intro hall fuel
    exact poll_never_returns status hall fuel 0 0

/-- Witness for C9: a service that is ready at the third query makes
the loop exit at index 2 after two one-second sleeps, and a service
that never leaves PROCESSING makes the loop return nothing. -/
theorem C9_poll_fixed_delay_no_timeout_witness :
    poll (fun n => if n < 2 then DocStatus.PROCESSING else DocStatus.READY) 5 0 0
      = some (2, 2) ∧
    poll (fun _ => DocStatus.PROCESSING) 3 0 0 = none :=
  ⟨(C9_poll_fixed_delay_no_timeout
      (fun n => if n < 2 then DocStatus.PROCESSING else DocStatus.READY)).1
      2 5 (by decide) (by decide) (by decide),
   (C9_poll_fixed_delay_no_timeout (fun _ => DocStatus.PROCESSING)).2.2
      (fun _ => rfl) 3⟩

end BrochureApp
